import Mathlib

/-!
Verification of the konrad RCE control core (`konrad/core.py`).

The controller `RCE` drives a time-stepping loop over an atmospheric column:
each iteration applies radiative heating, surface energy balance, convective
adjustment, upwelling cooling, height recomputation and a humidity update,
then checks a convergence predicate on the per-step temperature change
`deltaT` and a write-cadence predicate for output persistence.

Numbers are modelled as rationals; Python `%` on integers is floor-based
(`Int.fmod`) and on floats is `a - b * floor (a / b)`; fallible operations
return `Except PyErr`.  Submodels (radiation, humidity, convection, lapse
rate, upwelling, surface model) are abstract collaborators: they enter the
embedding as function fields of the `RCE` configuration, exactly in the
places the source invokes them.
-/

/-- Python exception kinds that the modelled code can raise. -/
inductive PyErr where
  | zeroDivisionError
  | typeError
  | indexError
deriving DecidableEq, Repr

/-- A Python value as far as `check_if_write` inspects it: an `int`, a
`float`, or anything else (neither, e.g. a string). -/
inductive PyVal where
  | int (n : ℤ)
  | float (q : ℚ)
  | other
deriving DecidableEq, Repr

/-- Python integer `%`: floor-based modulo, `ZeroDivisionError` on a zero
divisor. -/
def pyIntMod (a b : ℤ) : Except PyErr ℤ :=
  if b = 0 then .error .zeroDivisionError else .ok (Int.fmod a b)

/-- Python float `%` on rationals: `a - b * ⌊a / b⌋`, `ZeroDivisionError`
on a zero divisor. -/
def pyFloatMod (a b : ℚ) : Except PyErr ℚ :=
  if b = 0 then .error .zeroDivisionError else .ok (a - b * ⌊a / b⌋)

/-- The atmospheric state container (collaborator of the core): full and
half pressure levels, temperature, geopotential height, humidity and the
per-step temperature change `deltaT`, each a profile over levels. -/
structure Atmosphere where
  plev : List ℚ
  phlev : List ℚ
  T : List ℚ
  z : List ℚ
  H2O : List ℚ
  deltaT : List ℚ
deriving DecidableEq, Repr

/-- The surface state container: surface pressure and temperature. -/
structure Surface where
  pressure : ℚ
  temperature : ℚ
deriving DecidableEq, Repr

/-- Result of one radiation invocation: the four surface-adjacent flux
scalars (`values[0, 0]` of each flux field) and the net heating-rate
profile `net_htngrt`. -/
structure HeatingRates where
  sw_flxd : ℚ
  sw_flxu : ℚ
  lw_flxd : ℚ
  lw_flxu : ℚ
  net_htngrt : List ℚ
deriving DecidableEq, Repr

/-- An output-sink operation performed by the loop: schema creation
(`create_outfile`) or a record append at a timestamp in hours
(`append_to_netcdf`). -/
inductive OutEvent where
  | create
  | append (timestamp : ℚ)
deriving DecidableEq, Repr

/-- The RCE controller configuration: one abstract function per submodel
call site of the loop, plus the control parameters of `RCE.__init__`. -/
structure RCE where
  /-- Source call `radiation.adjust_solar_angle(t)` followed by
  `radiation.get_heatingrates(atmosphere, surface, cloud)`, folded into one
  function of the solar time in days (the cloud is opaque to the core). -/
  getHeatingrates : ℚ → Atmosphere → Surface → HeatingRates
  /-- Source call `surface.adjust(sw_down, sw_up, lw_down, lw_up, timestep)`. -/
  surfaceAdjust : Surface → ℚ → ℚ → ℚ → ℚ → ℚ → Surface
  /-- Source call `lapse.get(atmosphere)`: the critical lapse-rate profile. -/
  lapseGet : Atmosphere → List ℚ
  /-- Source call `convection.stabilize(atmosphere, lapse, timestep, surface)`: returns
  the mutated atmosphere and surface. -/
  convectionStabilize : Atmosphere → List ℚ → ℚ → Surface → Atmosphere × Surface
  /-- Source call `upwelling.cool(atmosphere, radheat, timestep)`. -/
  upwellingCool : Atmosphere → List ℚ → ℚ → Atmosphere
  /-- Source call `atmosphere.calculate_height()` recomputes the geopotential height
  field `z` from the current state (an external collaborator operation). -/
  calculateHeight : Atmosphere → List ℚ
  /-- Source call `humidity.get(atmosphere, surface, net_heatingrate)`: the new
  surface-level humidity profile stored into `H2O[0, :]`. -/
  humidityGet : Atmosphere → Surface → List ℚ → List ℚ
  outfile : Option String
  timestep : ℚ
  delta : ℚ
  writeevery : PyVal
  max_iterations : ℕ

/-- Run control state owned by the controller, plus the state containers it
references and the log of output-sink operations performed so far. -/
structure RCEState where
  atmosphere : Atmosphere
  surface : Surface
  heatingrates : Option HeatingRates
  converged : Bool
  niter : ℕ
  outLog : List OutEvent
deriving DecidableEq, Repr

/-- Embedding of `RCE.get_hours_passed`: `niter * 24 * timestep`. -/
def get_hours_passed (cfg : RCE) (niter : ℕ) : ℚ :=
  (niter : ℚ) * 24 * cfg.timestep

/-- Embedding of `RCE.is_converged`: `np.all(np.abs(deltaT) < delta)`. -/
def is_converged (deltaT : List ℚ) (delta : ℚ) : Bool :=
  deltaT.all (fun t => decide (|t| < delta))

/-- Embedding of `RCE.check_if_write`: `False` without an output file; integer cadence
compares `niter % writeevery` with `0`; float cadence compares
`((niter + 0.5) * timestep) % writeevery` with `timestep`; any other
`writeevery` raises `TypeError`. -/
def check_if_write (outfile : Option String) (writeevery : PyVal) (timestep : ℚ)
    (niter : ℕ) : Except PyErr Bool :=
  match outfile with
  | none => .ok false
  | some _ =>
    match writeevery with
    | .int k => (pyIntMod (niter : ℤ) k).map (fun r => decide (r = 0))
    | .float q =>
        (pyFloatMod (((niter : ℚ) + 1/2) * timestep) q).map
          (fun r => decide (r < timestep))
    | .other => .error .typeError

/-- One body of the main loop of `RCE.run` (`core.py` lines 209-271), in
source order: solar-angle adjustment and radiation, surface energy balance,
temperature snapshot `T`, critical lapse rate, radiative heating applied to
`T`, convective adjustment, upwelling cooling, height recomputation,
humidity update, `deltaT` computation, and the write-cadence check with
schema creation at `niter == 0` and appends afterwards.  `niter` itself is
untouched here; the loop increments it. -/
def stepIteration (cfg : RCE) (s : RCEState) : Except PyErr RCEState :=
  let hr := cfg.getHeatingrates (get_hours_passed cfg s.niter / 24) s.atmosphere s.surface
  let sfc1 := cfg.surfaceAdjust s.surface hr.sw_flxd hr.sw_flxu hr.lw_flxd hr.lw_flxu cfg.timestep
  let T := s.atmosphere.T
  let lapse := cfg.lapseGet s.atmosphere
  let atm1 := { s.atmosphere with
    T := List.zipWith (fun t h => t + h * cfg.timestep) s.atmosphere.T hr.net_htngrt }
  let p := cfg.convectionStabilize atm1 lapse cfg.timestep sfc1
  let atm2 := p.1
  let sfc2 := p.2
  let atm3 := cfg.upwellingCool atm2 hr.net_htngrt cfg.timestep
  let atm4 := { atm3 with z := cfg.calculateHeight atm3 }
  let atm5 := { atm4 with H2O := cfg.humidityGet atm4 sfc2 hr.net_htngrt }
  let atm6 := { atm5 with deltaT := List.zipWith (fun a b => a - b) atm5.T T }
  match check_if_write cfg.outfile cfg.writeevery cfg.timestep s.niter with
  | .error e => .error e
  | .ok w =>
      let log :=
        if w then
          if s.niter == 0 then s.outLog ++ [OutEvent.create]
          else s.outLog ++ [OutEvent.append (get_hours_passed cfg s.niter)]
        else s.outLog
      .ok { s with atmosphere := atm6, surface := sfc2,
                   heatingrates := some hr, outLog := log }

/-- The `while self.niter < self.max_iterations` loop of `RCE.run`,
fuelled: after each non-converged body `niter` is incremented; when
`is_converged()` holds after a body the loop breaks without incrementing
`niter` and without assigning `converged` (the source never writes the
`converged` attribute after `__init__`). -/
def runLoop (cfg : RCE) : ℕ → RCEState → Except PyErr RCEState
  | 0, s => .ok s
  | fuel + 1, s =>
    if s.niter < cfg.max_iterations then
      match stepIteration cfg s with
      | .error e => .error e
      | .ok s1 =>
        if is_converged s1.atmosphere.deltaT cfg.delta then .ok s1
        else runLoop cfg fuel { s1 with niter := s.niter + 1 }
    else .ok s

/-- Embedding of `RCE.run`: set `surface['pressure']` to the lowest half-level pressure
`phlev[0]` (an `IndexError` on an empty `phlev`), then run the main loop.
The fuel `max_iterations - niter` bounds the number of remaining bodies
exactly. -/
def run (cfg : RCE) (s : RCEState) : Except PyErr RCEState :=
  match s.atmosphere.phlev with
  | [] => .error .indexError
  | p :: _ =>
      runLoop cfg (cfg.max_iterations - s.niter)
        { s with surface := { s.surface with pressure := p } }

/-- The states the run would pass through if it never converged and never
failed: `traj cfg s n` performs `n` loop bodies from `s`, incrementing
`niter` after each. -/
def traj (cfg : RCE) (s : RCEState) : ℕ → Except PyErr RCEState
  | 0 => .ok s
  | n + 1 =>
    match traj cfg s n with
    | .error e => .error e
    | .ok t =>
      match stepIteration cfg t with
      | .error e => .error e
      | .ok u => .ok { u with niter := t.niter + 1 }

/-- Returns `true` when the next loop body from this point succeeds and does not
reach convergence: the step is error-free and `is_converged` fails on its
result. -/
def stepOkNotConverged (cfg : RCE) (e : Except PyErr RCEState) : Bool :=
  match e with
  | .error _ => false
  | .ok t =>
    match stepIteration cfg t with
    | .error _ => false
    | .ok u => !(is_converged u.atmosphere.deltaT cfg.delta)

/-- The atmosphere passed to `convection.stabilize` inside one loop body:
the pre-iteration atmosphere with the radiative heating already applied to
`T`. -/
def convectionInputAtm (cfg : RCE) (s : RCEState) : Atmosphere :=
  { s.atmosphere with
    T := List.zipWith (fun t h => t + h * cfg.timestep) s.atmosphere.T
      (cfg.getHeatingrates (get_hours_passed cfg s.niter / 24) s.atmosphere s.surface).net_htngrt }

/-- The critical-lapse-rate argument passed to `convection.stabilize`:
queried from the pre-heating atmosphere. -/
def convectionInputLapse (cfg : RCE) (s : RCEState) : List ℚ :=
  cfg.lapseGet s.atmosphere

/-- The surface argument passed to `convection.stabilize`: the surface
after the energy-balance update of this iteration. -/
def convectionInputSfc (cfg : RCE) (s : RCEState) : Surface :=
  let hr := cfg.getHeatingrates (get_hours_passed cfg s.niter / 24) s.atmosphere s.surface
  cfg.surfaceAdjust s.surface hr.sw_flxd hr.sw_flxu hr.lw_flxd hr.lw_flxu cfg.timestep

/-- The submodel roles of the constructor's capability contracts. -/
inductive Role where
  | radiationRole
  | humidityRole
  | surfaceRole
  | cloudRole
  | convectionRole
  | lapseRole
  | upwellingRole
deriving DecidableEq, Repr

/-- A supplied submodel object, reduced to the one aspect the constructor
inspects: which capability contract it satisfies. -/
structure SubmodelObj where
  role : Role
deriving DecidableEq, Repr

/-- The configuration error surfaced on a capability-contract mismatch,
carrying the role whose check failed. -/
inductive ConfigurationError where
  | contractMismatch (expected : Role)
deriving DecidableEq, Repr

/-- Modelled from the spec: `konrad.utils.return_if_type` (the module
`konrad/utils.py` is not part of the sources at hand).  Per the spec, it
validates a provided collaborator against its required capability contract,
substitutes the documented default when the argument is absent, and fails
fast with a `ConfigurationError` on contract mismatch. -/
def return_if_type (supplied : Option SubmodelObj) (expected : Role)
    (default : SubmodelObj) : Except ConfigurationError SubmodelObj :=
  match supplied with
  | none => .ok default
  | some s =>
      if s.role = expected then .ok s
      else .error (.contractMismatch expected)

/-- Default submodel of the radiation role (`RRTMG`). -/
def defaultRRTMG : SubmodelObj := ⟨.radiationRole⟩

/-- Default submodel of the humidity role (`FixedRH`). -/
def defaultFixedRH : SubmodelObj := ⟨.humidityRole⟩

/-- Default submodel of the surface role (`SurfaceHeatCapacity`). -/
def defaultSurfaceHeatCapacity : SubmodelObj := ⟨.surfaceRole⟩

/-- Default submodel of the cloud role (`ClearSky`). -/
def defaultClearSky : SubmodelObj := ⟨.cloudRole⟩

/-- Default submodel of the convection role (`HardAdjustment`). -/
def defaultHardAdjustment : SubmodelObj := ⟨.convectionRole⟩

/-- Default submodel of the lapse-rate role (`MoistLapseRate`). -/
def defaultMoistLapseRate : SubmodelObj := ⟨.lapseRole⟩

/-- Default submodel of the upwelling role (`NoUpwelling`). -/
def defaultNoUpwelling : SubmodelObj := ⟨.upwellingRole⟩

/-- The resolved submodel slots of a constructed controller. -/
structure ResolvedSubmodels where
  radiation : SubmodelObj
  humidity : SubmodelObj
  surface : SubmodelObj
  cloud : SubmodelObj
  convection : SubmodelObj
  lapse : SubmodelObj
  upwelling : SubmodelObj
deriving DecidableEq, Repr

/-- Submodel resolution of `RCE.__init__` (`core.py` lines 67-87): the
radiation argument is taken as given when supplied (`RRTMG()` only when
`None`, with no contract check), while humidity, surface, cloud,
convection, lapse and upwelling each go through `return_if_type` in source
order. -/
def rceInitSubmodels (radiation humidity surface cloud convection lapse
    upwelling : Option SubmodelObj) : Except ConfigurationError ResolvedSubmodels := do
  let rad :=
    match radiation with
    | none => defaultRRTMG
    | some r => r
  let hum ← return_if_type humidity .humidityRole defaultFixedRH
  let sfc ← return_if_type surface .surfaceRole defaultSurfaceHeatCapacity
  let cld ← return_if_type cloud .cloudRole defaultClearSky
  let cnv ← return_if_type convection .convectionRole defaultHardAdjustment
  let lps ← return_if_type lapse .lapseRole defaultMoistLapseRate
  let upw ← return_if_type upwelling .upwellingRole defaultNoUpwelling
  return ⟨rad, hum, sfc, cld, cnv, lps, upw⟩

/-- A concrete configuration whose radiation returns a zero net heating
rate of the right length and whose convection, upwelling and humidity
submodels are identities, with no output target. -/
def cfgZeroHeat : RCE where
  getHeatingrates := fun _ a _ => ⟨0, 0, 0, 0, List.replicate a.T.length 0⟩
  surfaceAdjust := fun s _ _ _ _ _ => s
  lapseGet := fun _ => []
  convectionStabilize := fun a _ _ s => (a, s)
  upwellingCool := fun a _ _ => a
  calculateHeight := fun a => a.z
  humidityGet := fun a _ _ => a.H2O
  outfile := none
  timestep := 1
  delta := 1
  writeevery := .int 1
  max_iterations := 5

/-- Like `cfgZeroHeat` but with a unit net heating rate everywhere and a
tighter threshold, so the column warms by one kelvin per level per
iteration and never converges. -/
def cfgUnitHeat : RCE :=
  { cfgZeroHeat with
    getHeatingrates := fun _ a _ => ⟨0, 0, 0, 0, List.replicate a.T.length 1⟩,
    delta := 1/2,
    max_iterations := 3 }

/-- Like `cfgZeroHeat` but with an output target and the default integer
cadence of one. -/
def cfgWrite : RCE :=
  { cfgZeroHeat with outfile := some "out.nc" }

/-- A concrete initial controller state: a one-level column with the
surface pressure already equal to `phlev[0]`. -/
def stInit : RCEState where
  atmosphere := ⟨[2], [3, 1], [250], [0], [0], [5]⟩
  surface := ⟨3, 288⟩
  heatingrates := none
  converged := false
  niter := 0
  outLog := []

section Lemmas

/-- Python floor-based integer modulo is zero exactly when euclidean modulo
is: both characterize divisibility. -/
theorem fmod_eq_zero_iff_emod_eq_zero (a b : ℤ) (hb : b ≠ 0) :
    Int.fmod a b = 0 ↔ a % b = 0 := by
  rw [← Int.dvd_iff_emod_eq_zero]
  constructor
  · intro h
    have h2 := Int.fmod_add_fdiv a b
    rw [h, zero_add] at h2
    exact ⟨_, h2.symm⟩
  · rintro ⟨c, rfl⟩
    rw [Int.fmod_def, Int.mul_fdiv_cancel_left _ hb, sub_self]

end Lemmas

/-- Claim C2: `is_converged` returns `true` iff every entry of `deltaT` has
absolute value strictly below `delta`; a single entry with magnitude at
least `delta` makes it return `false`. -/
theorem is_converged_iff_forall_abs_lt (dT : List ℚ) (δ : ℚ) :
    (is_converged dT δ = true ↔ ∀ t ∈ dT, |t| < δ) ∧
    (∀ t ∈ dT, δ ≤ |t| → is_converged dT δ = false) := by
  constructor
  · simp [is_converged, List.all_eq_true]
  · intro t ht hge
    rcases h : is_converged dT δ with _ | _
    · rfl
    · rw [is_converged, List.all_eq_true] at h
      have := of_decide_eq_true (h t ht)
      exact absurd this (not_lt.mpr hge)

/-- Concrete instance of claim C2's theorem: a profile inside the threshold
converges, one entry at the threshold blocks convergence. -/
theorem is_converged_iff_forall_abs_lt_witness :
    is_converged [0, 1/200] (1/100) = true ∧ is_converged [0, 1/100] (1/100) = false :=
  ⟨(is_converged_iff_forall_abs_lt [0, 1/200] (1/100)).1.mpr (by
      intro t ht
      simp only [List.mem_cons, List.not_mem_nil, or_false] at ht
      rcases ht with rfl | rfl <;> rw [abs_of_nonneg (by norm_num)] <;> norm_num),
   (is_converged_iff_forall_abs_lt [0, 1/100] (1/100)).2 (1/100) (by norm_num)
     (le_abs_self _)⟩

/-- Claim C4: with an output target configured, the write-cadence predicate
computes exactly `niter % writeevery == 0` for an integer cadence and
exactly `((niter + 0.5) * timestep) % writeevery < timestep` for a float
cadence (the moduli being Python's floor-based ones, defined for a nonzero
cadence). -/
theorem check_if_write_cadence_formulas (o : String) (w : PyVal) (ts : ℚ) (n : ℕ) :
    (∀ k : ℤ, w = .int k → k ≠ 0 →
      check_if_write (some o) w ts n = .ok (decide ((n : ℤ) % k = 0))) ∧
    (∀ q : ℚ, w = .float q → q ≠ 0 →
      check_if_write (some o) w ts n =
        .ok (decide (((n : ℚ) + 1/2) * ts - q * ⌊((n : ℚ) + 1/2) * ts / q⌋ < ts))) := by
  constructor
  · rintro k rfl hk
    simp only [check_if_write, pyIntMod, if_neg hk, Except.map]
    congr 1
    rw [Bool.decide_congr (fmod_eq_zero_iff_emod_eq_zero _ _ hk)]
  · rintro q rfl hq
    simp only [check_if_write, pyFloatMod, if_neg hq, Except.map]

/-- Concrete instance of claim C4's theorem: integer cadence 3 at iteration
4, float cadence 2.5 with timestep 1 at iteration 2. -/
theorem check_if_write_cadence_formulas_witness :
    check_if_write (some "out.nc") (.int 3) 1 4 = .ok (decide ((4 : ℤ) % 3 = 0)) ∧
    check_if_write (some "out.nc") (.float (5/2)) 1 2 =
      .ok (decide (((2 : ℚ) + 1/2) * 1 - (5/2) * ⌊((2 : ℚ) + 1/2) * 1 / (5/2)⌋ < 1)) :=
  ⟨(check_if_write_cadence_formulas "out.nc" (.int 3) 1 4).1 3 rfl (by norm_num),
   (check_if_write_cadence_formulas "out.nc" (.float (5/2)) 1 2).2 (5/2) rfl (by norm_num)⟩

/-- Claim C7, counterexample: a submodel that does not satisfy the
radiation capability contract, supplied as the `radiation` argument, is
accepted by the constructor without any `ConfigurationError` — the source
assigns `radiation` without a contract check. -/
theorem rceInit_accepts_contract_violating_radiation :
    rceInitSubmodels (some ⟨.humidityRole⟩) none none none none none none =
      .ok ⟨⟨.humidityRole⟩, defaultFixedRH, defaultSurfaceHeatCapacity, defaultClearSky,
           defaultHardAdjustment, defaultMoistLapseRate, defaultNoUpwelling⟩ := by
  rfl

/-- Claim C7 as amended: each of humidity, surface, cloud, convection,
lapse and upwelling is validated against its capability contract and a
mismatch fails with `ConfigurationError`; an omitted argument takes the
documented default; the `radiation` argument is taken as given with no
contract check (defaulting to `RRTMG` only when omitted). -/
theorem rceInit_validates_six_submodels_radiation_unchecked :
    (∀ r : Option SubmodelObj, ∀ x : SubmodelObj, x.role ≠ .humidityRole →
      rceInitSubmodels r (some x) none none none none none =
        .error (.contractMismatch .humidityRole)) ∧
    (∀ r : Option SubmodelObj, ∀ x : SubmodelObj, x.role ≠ .surfaceRole →
      rceInitSubmodels r none (some x) none none none none =
        .error (.contractMismatch .surfaceRole)) ∧
    (∀ r : Option SubmodelObj, ∀ x : SubmodelObj, x.role ≠ .cloudRole →
      rceInitSubmodels r none none (some x) none none none =
        .error (.contractMismatch .cloudRole)) ∧
    (∀ r : Option SubmodelObj, ∀ x : SubmodelObj, x.role ≠ .convectionRole →
      rceInitSubmodels r none none none (some x) none none =
        .error (.contractMismatch .convectionRole)) ∧
    (∀ r : Option SubmodelObj, ∀ x : SubmodelObj, x.role ≠ .lapseRole →
      rceInitSubmodels r none none none none (some x) none =
        .error (.contractMismatch .lapseRole)) ∧
    (∀ r : Option SubmodelObj, ∀ x : SubmodelObj, x.role ≠ .upwellingRole →
      rceInitSubmodels r none none none none none (some x) =
        .error (.contractMismatch .upwellingRole)) ∧
    (rceInitSubmodels none none none none none none none =
      .ok ⟨defaultRRTMG, defaultFixedRH, defaultSurfaceHeatCapacity, defaultClearSky,
           defaultHardAdjustment, defaultMoistLapseRate, defaultNoUpwelling⟩) ∧
    (∀ y : SubmodelObj,
      rceInitSubmodels (some y) none none none none none none =
        .ok ⟨y, defaultFixedRH, defaultSurfaceHeatCapacity, defaultClearSky,
             defaultHardAdjustment, defaultMoistLapseRate, defaultNoUpwelling⟩) := by
  refine ⟨?_, ?_, ?_, ?_, ?_, ?_, rfl, fun y => rfl⟩ <;>
    · intro r x hx
      cases r <;> simp [rceInitSubmodels, return_if_type, hx, bind, Except.bind]

/-- Concrete instance of claim C7's amended theorem: a cloud-role object
supplied as `convection` fails with a `ConfigurationError`, and the
all-defaults construction succeeds. -/
theorem rceInit_validates_six_submodels_radiation_unchecked_witness :
    rceInitSubmodels none none none none (some ⟨.cloudRole⟩) none none =
      .error (.contractMismatch .convectionRole) ∧
    rceInitSubmodels none none none none none none none =
      .ok ⟨defaultRRTMG, defaultFixedRH, defaultSurfaceHeatCapacity, defaultClearSky,
           defaultHardAdjustment, defaultMoistLapseRate, defaultNoUpwelling⟩ :=
  ⟨rceInit_validates_six_submodels_radiation_unchecked.2.2.2.1 none ⟨.cloudRole⟩ (by decide),
   rceInit_validates_six_submodels_radiation_unchecked.2.2.2.2.2.2.1⟩

/-- Claim C8: `run` begins by setting the surface pressure to the lowest
half-level pressure `phlev[0]`, before any loop body runs: the whole run is
the loop started from the state whose only change is that assignment. -/
theorem run_initializes_surface_pressure (cfg : RCE) (s : RCEState) (p : ℚ)
    (ps : List ℚ) (hph : s.atmosphere.phlev = p :: ps) :
    run cfg s = runLoop cfg (cfg.max_iterations - s.niter)
      { s with surface := { s.surface with pressure := p } } ∧
    ({ s with surface := { s.surface with pressure := p } } : RCEState).surface.pressure
      = s.atmosphere.phlev.headD 0 ∧
    ({ s with surface := { s.surface with pressure := p } } : RCEState).atmosphere
      = s.atmosphere ∧
    ({ s with surface := { s.surface with pressure := p } } : RCEState).niter = s.niter := by
  refine ⟨?_, by rw [hph]; rfl, rfl, rfl⟩
  rw [run, hph]

/-- Concrete instance of claim C8's theorem: a two-half-level column whose
lowest half-level pressure is 3. -/
theorem run_initializes_surface_pressure_witness :
    run cfgZeroHeat stInit = runLoop cfgZeroHeat (cfgZeroHeat.max_iterations - stInit.niter)
      { stInit with surface := { stInit.surface with pressure := 3 } } ∧
    ({ stInit with surface := { stInit.surface with pressure := 3 } } : RCEState).surface.pressure
      = stInit.atmosphere.phlev.headD 0 ∧
    ({ stInit with surface := { stInit.surface with pressure := 3 } } : RCEState).atmosphere
      = stInit.atmosphere ∧
    ({ stInit with surface := { stInit.surface with pressure := 3 } } : RCEState).niter
      = stInit.niter :=
  run_initializes_surface_pressure cfgZeroHeat stInit 3 [1] rfl

/-- Claim C5: inside one loop body the temperature snapshot and the lapse
query use the pre-heating atmosphere, the atmosphere handed to
`convection.stabilize` carries `T` with the radiative heating already
applied, the body's result depends on the convection submodel only through
its value at that post-heating input, and `deltaT` is computed against the
pre-iteration snapshot. -/
theorem convection_observes_post_heating_temperature (cfg : RCE) (s : RCEState) :
    (convectionInputAtm cfg s).T =
      List.zipWith (fun t h => t + h * cfg.timestep) s.atmosphere.T
        (cfg.getHeatingrates (get_hours_passed cfg s.niter / 24) s.atmosphere
          s.surface).net_htngrt ∧
    convectionInputLapse cfg s = cfg.lapseGet s.atmosphere ∧
    (∀ c1 c2 : Atmosphere → List ℚ → ℚ → Surface → Atmosphere × Surface,
      c1 (convectionInputAtm cfg s) (convectionInputLapse cfg s) cfg.timestep
          (convectionInputSfc cfg s) =
        c2 (convectionInputAtm cfg s) (convectionInputLapse cfg s) cfg.timestep
          (convectionInputSfc cfg s) →
      stepIteration { cfg with convectionStabilize := c1 } s =
        stepIteration { cfg with convectionStabilize := c2 } s) ∧
    (∀ u, stepIteration cfg s = .ok u →
      u.atmosphere.deltaT =
        List.zipWith (fun a b => a - b) u.atmosphere.T s.atmosphere.T) := by
  refine ⟨rfl, rfl, ?_, ?_⟩
  · intro c1 c2 h
    simp only [convectionInputAtm, convectionInputLapse, convectionInputSfc,
      get_hours_passed] at h
    simp only [stepIteration, get_hours_passed]
    rw [h]
  · intro u hu
    rcases hcw : check_if_write cfg.outfile cfg.writeevery cfg.timestep s.niter with e | w
    · rw [stepIteration, hcw] at hu
      cases hu
    · rw [stepIteration, hcw] at hu
      cases hu
      rfl

/-- Concrete instance of claim C5's theorem: two convection doubles that
agree at the post-heating input give identical loop bodies. -/
theorem convection_observes_post_heating_temperature_witness :
    stepIteration { cfgZeroHeat with convectionStabilize := fun a _ _ su => (a, su) } stInit =
      stepIteration
        { cfgZeroHeat with convectionStabilize := fun a _ _ su => ({ a with T := a.T }, su) }
        stInit :=
  (convection_observes_post_heating_temperature cfgZeroHeat stInit).2.2.1
    (fun a _ _ su => (a, su)) (fun a _ _ su => ({ a with T := a.T }, su)) rfl

/-- Characterization of a successful loop body given the write-cadence
check's result: `niter` and `converged` are untouched and the output log is
extended according to the check and the `niter == 0` schema-creation test. -/
theorem stepIteration_ok_of_check (cfg : RCE) (s : RCEState) (w : Bool)
    (hcw : check_if_write cfg.outfile cfg.writeevery cfg.timestep s.niter = .ok w) :
    ∃ u, stepIteration cfg s = .ok u ∧ u.niter = s.niter ∧ u.converged = s.converged ∧
      u.outLog = (if w then
          (if s.niter == 0 then s.outLog ++ [OutEvent.create]
           else s.outLog ++ [OutEvent.append (get_hours_passed cfg s.niter)])
        else s.outLog) := by
  rw [stepIteration, hcw]
  exact ⟨_, rfl, rfl, rfl, rfl⟩

/-- When every write-cadence check answers `.ok false`, the loop runs to a
successful result with the output log and `converged` flag unchanged. -/
theorem runLoop_outLog_eq_of_check_false (cfg : RCE)
    (H : ∀ n : ℕ, check_if_write cfg.outfile cfg.writeevery cfg.timestep n = .ok false) :
    ∀ (fuel : ℕ) (s : RCEState), ∃ u, runLoop cfg fuel s = .ok u ∧
      u.outLog = s.outLog ∧ u.converged = s.converged := by
  intro fuel
  induction fuel with
  | zero => exact fun s => ⟨s, rfl, rfl, rfl⟩
  | succ fuel ih =>
    intro s
    by_cases hlt : s.niter < cfg.max_iterations
    · obtain ⟨u, hu, hn, hc, hl⟩ := stepIteration_ok_of_check cfg s false (H s.niter)
      rw [if_neg Bool.false_ne_true] at hl
      by_cases hconv : is_converged u.atmosphere.deltaT cfg.delta
      · exact ⟨u, by simp [runLoop, hlt, hu, hconv], hl, hc⟩
      · obtain ⟨v, hv, hvl, hvc⟩ := ih { u with niter := s.niter + 1 }
        refine ⟨v, ?_, by rw [hvl]; exact hl, by rw [hvc]; exact hc⟩
        simp only [runLoop, if_pos hlt, hu]
        rw [if_neg (by simpa using hconv)]
        exact hv
    · exact ⟨s, by simp [runLoop, hlt], rfl, rfl⟩

/-- When every write-cadence check succeeds, the loop runs to a successful
result whose output log extends the starting log, with `converged`
unchanged. -/
theorem runLoop_ok_of_check_ok (cfg : RCE)
    (H : ∀ n : ℕ, ∃ b, check_if_write cfg.outfile cfg.writeevery cfg.timestep n = .ok b) :
    ∀ (fuel : ℕ) (s : RCEState), ∃ u, runLoop cfg fuel s = .ok u ∧
      (∃ tail, u.outLog = s.outLog ++ tail) ∧ u.converged = s.converged := by
  intro fuel
  induction fuel with
  | zero => exact fun s => ⟨s, rfl, ⟨[], by simp⟩, rfl⟩
  | succ fuel ih =>
    intro s
    by_cases hlt : s.niter < cfg.max_iterations
    · obtain ⟨b, hb⟩ := H s.niter
      obtain ⟨u, hu, hn, hc, hl⟩ := stepIteration_ok_of_check cfg s b hb
      have hpre : ∃ tail, u.outLog = s.outLog ++ tail := by
        rw [hl]
        split_ifs
        · exact ⟨[OutEvent.create], rfl⟩
        · exact ⟨[OutEvent.append (get_hours_passed cfg s.niter)], rfl⟩
        · exact ⟨[], by simp⟩
      by_cases hconv : is_converged u.atmosphere.deltaT cfg.delta
      · exact ⟨u, by simp [runLoop, hlt, hu, hconv], hpre, hc⟩
      · obtain ⟨v, hv, ⟨tail2, hvl⟩, hvc⟩ := ih { u with niter := s.niter + 1 }
        obtain ⟨tail1, hl1⟩ := hpre
        refine ⟨v, ?_, ⟨tail1 ++ tail2, by rw [hvl]; simp [hl1]⟩, by rw [hvc]; exact hc⟩
        simp only [runLoop, if_pos hlt, hu]
        rw [if_neg (by simpa using hconv)]
        exact hv
    · exact ⟨s, by simp [runLoop, hlt], ⟨[], by simp⟩, rfl⟩

/-- Claim C9: without an output target `check_if_write` answers `false` for
every `niter`, every `writeevery` (even one that is neither `int` nor
`float`, with no `TypeError`) and every timestep, and `run` completes with
no output operation performed. -/
theorem no_outfile_no_output (cfg : RCE) (s : RCEState) :
    (∀ (w : PyVal) (ts : ℚ) (n : ℕ), check_if_write none w ts n = .ok false) ∧
    (cfg.outfile = none → ∀ (p : ℚ) (ps : List ℚ), s.atmosphere.phlev = p :: ps →
      ∃ f, run cfg s = .ok f ∧ f.outLog = s.outLog) := by
  constructor
  · intro w ts n
    rfl
  · intro hout p ps hph
    have H : ∀ n, check_if_write cfg.outfile cfg.writeevery cfg.timestep n = .ok false := by
      intro n
      rw [hout]
      rfl
    obtain ⟨f, hf, hl, _⟩ := runLoop_outLog_eq_of_check_false cfg H
      (cfg.max_iterations - s.niter) { s with surface := { s.surface with pressure := p } }
    exact ⟨f, by rw [run, hph]; exact hf, hl⟩

/-- Concrete instance of claim C9's theorem: a run with `outfile = None`
and a `writeevery` of neither integer nor float type leaves the output log
empty and raises nothing. -/
theorem no_outfile_no_output_witness :
    check_if_write none .other 1 7 = .ok false ∧
    ∃ f, run { cfgZeroHeat with writeevery := .other } stInit = .ok f ∧ f.outLog = stInit.outLog :=
  ⟨(no_outfile_no_output { cfgZeroHeat with writeevery := .other } stInit).1 .other 1 7,
   (no_outfile_no_output { cfgZeroHeat with writeevery := .other } stInit).2 rfl 3 [1] rfl⟩

/-- Applying a zero heating-rate profile of matching length leaves the
temperature profile unchanged. -/
theorem zipWith_add_mul_replicate_zero (c : ℚ) (l : List ℚ) :
    List.zipWith (fun t h => t + h * c) l (List.replicate l.length 0) = l := by
  induction l with
  | nil => rfl
  | cons x xs ih => simp [List.replicate_succ, ih]

/-- The elementwise difference of a profile with itself is the zero
profile. -/
theorem zipWith_sub_self_eq_replicate (l : List ℚ) :
    List.zipWith (fun a b => a - b) l l = List.replicate l.length 0 := by
  induction l with
  | nil => rfl
  | cons x xs ih => simp [List.replicate_succ, ih]

/-- The zero profile converges for any positive threshold. -/
theorem is_converged_replicate_zero (n : ℕ) (δ : ℚ) (hδ : 0 < δ) :
    is_converged (List.replicate n 0) δ = true := by
  simp only [is_converged, List.all_eq_true, List.mem_replicate]
  rintro t ⟨-, rfl⟩
  simpa using hδ

/-- A successful loop body never changes `niter` or `converged`. -/
theorem stepIteration_ok_inv (cfg : RCE) (s u : RCEState)
    (h : stepIteration cfg s = .ok u) : u.niter = s.niter ∧ u.converged = s.converged := by
  rcases hcw : check_if_write cfg.outfile cfg.writeevery cfg.timestep s.niter with e | w
  · rw [stepIteration, hcw] at h
    cases h
  · rw [stepIteration, hcw] at h
    cases h
    exact ⟨rfl, rfl⟩

/-- Shifting the trajectory by one successful loop body. -/
theorem traj_shift (cfg : RCE) :
    ∀ (n : ℕ) (s u : RCEState), stepIteration cfg s = .ok u →
      traj cfg s (n + 1) = traj cfg { u with niter := s.niter + 1 } n := by
  intro n
  induction n with
  | zero =>
    intro s u hu
    simp [traj, hu]
  | succ n ih =>
    intro s u hu
    have l1 : traj cfg s (n + 1 + 1) =
        match traj cfg s (n + 1) with
        | .error e => .error e
        | .ok t =>
          match stepIteration cfg t with
          | .error e => .error e
          | .ok v => .ok { v with niter := t.niter + 1 } := rfl
    have l2 : traj cfg { u with niter := s.niter + 1 } (n + 1) =
        match traj cfg { u with niter := s.niter + 1 } n with
        | .error e => .error e
        | .ok t =>
          match stepIteration cfg t with
          | .error e => .error e
          | .ok v => .ok { v with niter := t.niter + 1 } := rfl
    rw [l1, l2, ih s u hu]

/-- If no loop body up to `max_iterations` converges or fails, the loop
computes exactly the `max_iterations`-th trajectory state. -/
theorem runLoop_eq_traj_of_never_converged (cfg : RCE) (s : RCEState)
    (H : ∀ n, n < cfg.max_iterations → stepOkNotConverged cfg (traj cfg s n) = true) :
    ∀ (k j : ℕ) (t : RCEState), j + k = cfg.max_iterations → traj cfg s j = .ok t →
      t.niter = j → runLoop cfg k t = traj cfg s cfg.max_iterations := by
  intro k
  induction k with
  | zero =>
    intro j t hjk ht hn
    rw [runLoop, ← hjk, Nat.add_zero, ht]
  | succ k ih =>
    intro j t hjk ht hn
    have hj : j < cfg.max_iterations := by omega
    have hH := H j hj
    rw [ht] at hH
    simp only [stepOkNotConverged] at hH
    rcases hu : stepIteration cfg t with e | u
    · rw [hu] at hH
      simp at hH
    · rw [hu] at hH
      have hnc : is_converged u.atmosphere.deltaT cfg.delta = false := by
        simpa using hH
      have hguard : t.niter < cfg.max_iterations := by omega
      have hstep : runLoop cfg (k + 1) t = runLoop cfg k { u with niter := t.niter + 1 } := by
        rw [runLoop, if_pos hguard, hu]
        simp [hnc]
      rw [hstep, hn]
      exact ih (j + 1) { u with niter := j + 1 } (by omega)
        (by simp only [traj, ht, hu]; rw [hn]) rfl

/-- With an output target and a positive integer cadence the write check
fires at iteration zero. -/
theorem check_write_zero_int (o : String) (ts : ℚ) (k : ℤ) (hk : 0 < k) :
    check_if_write (some o) (.int k) ts 0 = .ok true := by
  simp only [check_if_write, pyIntMod, if_neg (ne_of_gt hk), Except.map, Nat.cast_zero]
  congr 1
  rw [decide_eq_true_eq]
  exact Int.zero_fmod k

/-- With an output target, a positive timestep and a positive float
cadence the write check fires at iteration zero: the residue of
`0.5 * timestep` is at most `0.5 * timestep`, which is below `timestep`. -/
theorem check_write_zero_float (o : String) (ts q : ℚ) (hq : 0 < q) (hts : 0 < ts) :
    check_if_write (some o) (.float q) ts 0 = .ok true := by
  simp only [check_if_write, pyFloatMod, if_neg (ne_of_gt hq), Except.map, Nat.cast_zero]
  congr 1
  rw [decide_eq_true_eq]
  have ha : (0 : ℚ) < ((0 : ℚ) + 1/2) * ts := by linarith
  have hfl : (0 : ℤ) ≤ ⌊((0 : ℚ) + 1/2) * ts / q⌋ :=
    Int.floor_nonneg.mpr (le_of_lt (div_pos ha hq))
  have hmul : (0 : ℚ) ≤ q * (⌊((0 : ℚ) + 1/2) * ts / q⌋ : ℚ) :=
    mul_nonneg hq.le (by exact_mod_cast hfl)
  linarith

/-- Claim C10: with an output target, a positive timestep and a positive
integer or float cadence, the write check is true at iteration zero (int:
`0 mod writeevery == 0`; float: the residue of `0.5 * timestep` is below
`timestep`), so a run started at `niter = 0` has the schema creation as its
first output operation — no append can precede it. -/
theorem first_iteration_always_writes_schema :
    (∀ (o : String) (ts : ℚ) (k : ℤ), 0 < k →
      check_if_write (some o) (.int k) ts 0 = .ok true) ∧
    (∀ (o : String) (ts q : ℚ), 0 < q → 0 < ts →
      check_if_write (some o) (.float q) ts 0 = .ok true) ∧
    (∀ (cfg : RCE) (s : RCEState) (o : String) (p : ℚ) (ps : List ℚ),
      cfg.outfile = some o →
      ((∃ k : ℤ, cfg.writeevery = .int k ∧ 0 < k) ∨
        (∃ q : ℚ, cfg.writeevery = .float q ∧ 0 < q ∧ 0 < cfg.timestep)) →
      0 < cfg.max_iterations → s.niter = 0 → s.outLog = [] →
      s.atmosphere.phlev = p :: ps →
      ∃ f, run cfg s = .ok f ∧ f.outLog.head? = some .create) := by
  refine ⟨fun o ts k hk => check_write_zero_int o ts k hk,
    fun o ts q hq hts => check_write_zero_float o ts q hq hts, ?_⟩
  intro cfg s o p ps hout hcad hmax hn hlog hph
  have Hok : ∀ n : ℕ, ∃ b, check_if_write cfg.outfile cfg.writeevery cfg.timestep n = .ok b := by
    intro n
    rcases hcad with ⟨k, hw, hk⟩ | ⟨q, hw, hq, -⟩
    · rw [hout, hw]
      refine ⟨decide (Int.fmod (n : ℤ) k = 0), ?_⟩
      simp [check_if_write, pyIntMod, if_neg (ne_of_gt hk), Except.map]
    · rw [hout, hw]
      refine ⟨decide ((((n : ℚ) + 1/2) * cfg.timestep) -
        q * ⌊(((n : ℚ) + 1/2) * cfg.timestep) / q⌋ < cfg.timestep), ?_⟩
      simp [check_if_write, pyFloatMod, if_neg (ne_of_gt hq), Except.map]
  have H0 : check_if_write cfg.outfile cfg.writeevery cfg.timestep 0 = .ok true := by
    rcases hcad with ⟨k, hw, hk⟩ | ⟨q, hw, hq, hts⟩
    · rw [hout, hw]
      exact check_write_zero_int o cfg.timestep k hk
    · rw [hout, hw]
      exact check_write_zero_float o cfg.timestep q hq hts
  set s0 : RCEState := { s with surface := { s.surface with pressure := p } } with hs0
  have hs0n : s0.niter = 0 := hn
  have hs0l : s0.outLog = [] := hlog
  have hrun : run cfg s = runLoop cfg (cfg.max_iterations - s.niter) s0 := by
    rw [run, hph]
  obtain ⟨m, hm⟩ : ∃ m, cfg.max_iterations = m + 1 :=
    ⟨cfg.max_iterations - 1, (Nat.succ_pred_eq_of_pos hmax).symm⟩
  obtain ⟨u, hu, hun, -, hul⟩ := stepIteration_ok_of_check cfg s0 true (by rw [hs0n]; exact H0)
  rw [if_pos rfl, hs0n, hs0l] at hul
  simp only [beq_self_eq_true, if_true, List.nil_append] at hul
  have hguard : s0.niter < cfg.max_iterations := by omega
  by_cases hcv : is_converged u.atmosphere.deltaT cfg.delta
  · refine ⟨u, ?_, by rw [hul]; rfl⟩
    rw [hrun, hn, Nat.sub_zero, hm, runLoop, if_pos hguard, hu]
    simp [hcv]
  · obtain ⟨f, hf, ⟨tail, htl⟩, -⟩ :=
      runLoop_ok_of_check_ok cfg Hok m { u with niter := s0.niter + 1 }
    refine ⟨f, ?_, ?_⟩
    · rw [hrun, hn, Nat.sub_zero, hm, runLoop, if_pos hguard, hu]
      simp only [hcv, if_false, Bool.false_eq_true]
      exact hf
    · rw [htl]
      have : ({ u with niter := s0.niter + 1 } : RCEState).outLog = [OutEvent.create] := hul
      rw [this]
      rfl

/-- Concrete instance of claim C10's theorem: default integer cadence 1
with an output target creates the schema at iteration zero. -/
theorem first_iteration_always_writes_schema_witness :
    check_if_write (some "out.nc") (.int 1) 1 0 = .ok true ∧
    check_if_write (some "out.nc") (.float (5/2)) 1 0 = .ok true ∧
    ∃ f, run cfgWrite stInit = .ok f ∧ f.outLog.head? = some .create :=
  ⟨first_iteration_always_writes_schema.1 "out.nc" 1 1 (by norm_num),
   first_iteration_always_writes_schema.2.1 "out.nc" 1 (5/2) (by norm_num) (by norm_num),
   first_iteration_always_writes_schema.2.2 cfgWrite stInit "out.nc" 3 [1] rfl
     (Or.inl ⟨1, rfl, by norm_num⟩) (by norm_num [cfgWrite, cfgZeroHeat]) rfl rfl rfl⟩

/-- Claim C3: starting from `niter = 0` (with the surface pressure already
consistent, so the run follows the trajectory), along a run in which no
loop body converges or fails, `niter` increases by exactly one per
completed body — the `n`-th trajectory state has `niter = n` for every
`n ≤ max_iterations`, so it never decreases, skips or exceeds the bound —
and the run terminates with `niter = max_iterations` and
`converged = false`. -/
theorem run_exhausts_to_max_iterations (cfg : RCE) (s : RCEState) (p : ℚ)
    (ps : List ℚ) (hph : s.atmosphere.phlev = p :: ps) (hsp : s.surface.pressure = p)
    (h0 : s.niter = 0) (hcv : s.converged = false)
    (H : ∀ n, n < cfg.max_iterations → stepOkNotConverged cfg (traj cfg s n) = true) :
    (∀ n, n ≤ cfg.max_iterations →
      ∃ t, traj cfg s n = .ok t ∧ t.niter = n ∧ t.converged = false) ∧
    ∃ f, run cfg s = .ok f ∧ f.niter = cfg.max_iterations ∧ f.converged = false := by
  have A : ∀ n, n ≤ cfg.max_iterations →
      ∃ t, traj cfg s n = .ok t ∧ t.niter = n ∧ t.converged = false := by
    intro n
    induction n with
    | zero => exact fun _ => ⟨s, rfl, h0, hcv⟩
    | succ n ih =>
      intro hle
      obtain ⟨t, ht, htn, htc⟩ := ih (by omega)
      have hH := H n (by omega)
      rw [ht] at hH
      simp only [stepOkNotConverged] at hH
      rcases hu : stepIteration cfg t with e | u
      · rw [hu] at hH
        simp at hH
      · refine ⟨{ u with niter := t.niter + 1 }, by simp only [traj, ht, hu], by rw [htn], ?_⟩
        have := (stepIteration_ok_inv cfg t u hu).2
        simp only [this, htc]
  refine ⟨A, ?_⟩
  obtain ⟨f, hf, hfn, hfc⟩ := A cfg.max_iterations le_rfl
  refine ⟨f, ?_, hfn, hfc⟩
  have hrun : run cfg s = runLoop cfg (cfg.max_iterations - s.niter) s := by
    rw [run, hph, ← hsp]
  rw [hrun, h0, Nat.sub_zero,
    runLoop_eq_traj_of_never_converged cfg s H cfg.max_iterations 0 s (by omega) rfl h0, hf]

/-- Concrete instance of claim C3's theorem: a unit heating rate with
threshold one half never converges, and the run stops after exactly
`max_iterations = 3` loop bodies. -/
theorem run_exhausts_to_max_iterations_witness :
    ∃ f, run cfgUnitHeat stInit = .ok f ∧ f.niter = cfgUnitHeat.max_iterations ∧
      f.converged = false :=
  (run_exhausts_to_max_iterations cfgUnitHeat stInit 3 [1] rfl rfl rfl rfl
    (by with_unfolding_all decide)).2

/-- Claim C6: with identity convection, upwelling and humidity submodels
and a radiation scheme returning a zero net heating rate, one loop body
leaves `T` unchanged and produces the zero `deltaT` profile, so for any
positive `delta` the run converges immediately: it stops during iteration
zero with `niter = 0` and the convergence predicate holding. -/
theorem noop_submodels_converge_immediately (cfg : RCE) (s : RCEState) (p : ℚ)
    (ps : List ℚ)
    (hrad : ∀ t a su, (cfg.getHeatingrates t a su).net_htngrt = List.replicate a.T.length 0)
    (hcnv : ∀ a l t su, cfg.convectionStabilize a l t su = (a, su))
    (hupw : ∀ a r t, cfg.upwellingCool a r t = a)
    (hhum : ∀ a su r, cfg.humidityGet a su r = a.H2O)
    (hout : cfg.outfile = none)
    (hδ : 0 < cfg.delta)
    (hph : s.atmosphere.phlev = p :: ps)
    (hn : s.niter = 0) (hmax : 0 < cfg.max_iterations) :
    ∃ f, run cfg s = .ok f ∧ f.niter = 0 ∧
      f.atmosphere.T = s.atmosphere.T ∧
      f.atmosphere.deltaT = List.replicate s.atmosphere.T.length 0 ∧
      is_converged f.atmosphere.deltaT cfg.delta = true := by
  set s0 : RCEState := { s with surface := { s.surface with pressure := p } } with hs0
  have hs0n : s0.niter = 0 := hn
  have hcw : check_if_write cfg.outfile cfg.writeevery cfg.timestep s0.niter = .ok false := by
    rw [hout]
    rfl
  rcases hstep : stepIteration cfg s0 with e | u
  · rw [stepIteration, hcw] at hstep
    cases hstep
  · have hstep2 := hstep
    rw [stepIteration, hcw] at hstep2
    have hrec := Except.ok.inj hstep2
    have hT : u.atmosphere.T = s.atmosphere.T := by
      rw [← hrec]
      simp [hrad, hcnv, hupw, hhum, zipWith_add_mul_replicate_zero]
    have hdT : u.atmosphere.deltaT = List.replicate s.atmosphere.T.length 0 := by
      rw [← hrec]
      simp [hrad, hcnv, hupw, hhum, zipWith_add_mul_replicate_zero,
        zipWith_sub_self_eq_replicate]
    have hcv : is_converged u.atmosphere.deltaT cfg.delta = true := by
      rw [hdT]
      exact is_converged_replicate_zero _ _ hδ
    have hun : u.niter = 0 := by
      rw [← hrec]
      exact hn
    refine ⟨u, ?_, hun, hT, hdT, hcv⟩
    obtain ⟨m, hm⟩ : ∃ m, cfg.max_iterations = m + 1 :=
      ⟨cfg.max_iterations - 1, (Nat.succ_pred_eq_of_pos hmax).symm⟩
    have hg : s0.niter < cfg.max_iterations := by
      rw [hs0n]
      exact hmax
    have hrun : run cfg s = runLoop cfg (cfg.max_iterations - s.niter) s0 := by
      rw [run, hph]
    rw [hrun, hn, Nat.sub_zero, hm]
    simp only [runLoop, if_pos hg, hstep, hcv, if_true]

/-- Concrete instance of claim C6's theorem: zero net heating with identity
submodels converges during iteration zero. -/
theorem noop_submodels_converge_immediately_witness :
    ∃ f, run cfgZeroHeat stInit = .ok f ∧ f.niter = 0 ∧
      f.atmosphere.T = stInit.atmosphere.T ∧
      f.atmosphere.deltaT = List.replicate stInit.atmosphere.T.length 0 ∧
      is_converged f.atmosphere.deltaT cfgZeroHeat.delta = true :=
  noop_submodels_converge_immediately cfgZeroHeat stInit 3 [1]
    (fun _ _ _ => rfl) (fun _ _ _ _ => rfl) (fun _ _ _ => rfl) (fun _ _ _ => rfl)
    rfl (by norm_num [cfgZeroHeat]) rfl rfl (by norm_num [cfgZeroHeat])

/-- Claim C1 (divergence witness): in a configuration whose first iteration
makes every `deltaT` entry fall below `delta`, the run stops during
iteration zero without incrementing `niter` — but the `converged` flag is
still `false` afterwards, because `run` never assigns it: only
`is_converged()` reports the convergence. -/
theorem run_leaves_converged_flag_false :
    (run cfgZeroHeat stInit).toOption.map
        (fun f => (f.niter, f.converged, is_converged f.atmosphere.deltaT cfgZeroHeat.delta))
      = some (0, false, true) := by
  with_unfolding_all decide
